import Mathlib

/-!
A shallow embedding of the volleyball-bot-v2 backend: the SQLAlchemy schema
(`services/bot-api/db/models.py`), the payment/budget/forecast endpoints
(`services/bot-api/api/payments.py`), the roster/poll endpoints
(`services/bot-api/api/routes.py`), the Telegram poll-answer handler
(`services/bot-api/bot/handlers.py`) and the nightly analytics job
(`services/jobs/budget_analytics_job.py`).

Conventions of the embedding:
* timestamps are seconds since the Unix epoch (UTC), as `Int`;
* `Numeric`/`Decimal`/`float` money amounts are `ℚ`;
* a database is a record of tables, each a list of rows in insertion order;
* SQLAlchemy's `scalar_one_or_none` raises `MultipleResultsFound` on two or
  more rows, so queries through it return `Except`; an HTTP endpoint that can
  write returns its new database next to its result, and an uncaught error
  leaves the database unchanged (the session is rolled back / never committed);
* each request sees a single clock value `now` (`datetime.utcnow()`).
-/

/-- Money: `Numeric(…, 2)` columns, Python `Decimal` and `float` amounts. -/
abbrev Money := ℚ

/-- Seconds since the Unix epoch, UTC. -/
abbrev Timestamp := Int

def secondsPerDay : Int := 86400

/-- Python `datetime.weekday()`: Monday = 0 … Sunday = 6.
1970-01-01 (epoch day 0) was a Thursday, weekday 3. -/
def pyWeekday (t : Timestamp) : Int := (t.ediv secondsPerDay + 3).emod 7

/-- SQL `extract('dow', ts)` as PostgreSQL evaluates it: Sunday = 0 …
Saturday = 6 (epoch day 0, a Thursday, has dow 4). SQLite's `strftime('%w', …)`,
the other backend SQLAlchemy compiles `extract('dow', …)` to, numbers the days
the same way. -/
def sqlDow (t : Timestamp) : Int := (t.ediv secondsPerDay + 4).emod 7

/-- `players` (models.py): the columns the embedded code reads. -/
structure Player where
  id : Nat
  telegram_user_id : Option Int
  username : Option String
  display_name : Option String
  skill_rating : Option ℚ
  preferred_position : Option String
deriving DecidableEq

/-- `game_schedule` (models.py): the columns the embedded code reads.
`price_per_player` and `max_players` are nullable. -/
structure GameSchedule where
  id : Nat
  game_date : Timestamp
  location : String
  description : Option String
  price_per_player : Option Money
  max_players : Option Nat
deriving DecidableEq

/-- `polls` (models.py). `poll_id` is the Telegram poll id (unique),
`game_id` and `created_at` are nullable. -/
structure Poll where
  id : Nat
  poll_id : String
  poll_type : String
  title : String
  game_id : Option Nat
  created_at : Option Timestamp
  closed_at : Option Timestamp
deriving DecidableEq

/-- `poll_votes` (models.py); (`poll_id`, `user_id`) is a unique index. -/
structure PollVote where
  id : Nat
  poll_id : String
  user_id : Int
  option_id : Nat
  voted_at : Timestamp
deriving DecidableEq

/-- `event_payments` (models.py); (`game_id`, `player_id`) is a unique index. -/
structure EventPayment where
  id : Nat
  game_id : Nat
  player_id : Nat
  amount : Money
  currency : String
  paid_at : Timestamp
  method : String
  status : String
  external_payment_id : Option String
  notes : Option String
deriving DecidableEq

/-- One entry of the JSON `paid_players_list` / `unpaid_players_list` the
analytics job stores in `budget_cache` (budget_analytics_job.py, `player_info`). -/
structure PlayerInfo where
  player_id : Nat
  telegram_user_id : Option Int
  username : Option String
  display_name : Option String
deriving DecidableEq

/-- `budget_cache` (models.py); `game_id` is declared `unique=True`. -/
structure BudgetCache where
  id : Nat
  game_id : Nat
  expected_income : Money
  actual_income : Money
  number_of_payers : Nat
  expected_players : Nat
  registered_players : Nat
  paid_players_list : List PlayerInfo
  unpaid_players_list : List PlayerInfo
  computed_at : Timestamp
deriving DecidableEq

/-- The JSON metadata dict both forecast writers build:
`{"historical_games_count": …, "weekday": …, "location": …}`. -/
structure ForecastMeta where
  historical_games_count : Nat
  weekday : Int
  location : String
deriving DecidableEq

/-- `forecast_cache` (models.py); `game_id` is declared `unique=True`.
The JSON column is named `forecast_metadata` (`none` is SQL NULL), because a
declarative model cannot map a column named `metadata`: on every SQLAlchemy
declarative class that attribute is the reserved `Base.metadata` `MetaData`
table registry. payments.py and budget_analytics_job.py nevertheless access
`.metadata` — so their reads see the registry object (a truthy non-dict), and
their writes (`row.metadata = {...}`, `ForecastCache(metadata=...)`) only set
an unmapped instance attribute: the `forecast_metadata` column is never read
or written by any embedded code path. -/
structure ForecastCache where
  id : Nat
  game_id : Nat
  forecasted_players : Int
  forecasted_income : Money
  confidence_level : String
  method : String
  forecast_metadata : Option ForecastMeta
  computed_at : Timestamp
deriving DecidableEq

/-- The whole database: one list of rows per table, in insertion order. -/
structure DB where
  players : List Player
  games : List GameSchedule
  polls : List Poll
  poll_votes : List PollVote
  event_payments : List EventPayment
  budget_cache : List BudgetCache
  forecast_cache : List ForecastCache
deriving DecidableEq

/-- An error an endpoint or the job can raise: `HTTPException(status, detail)`,
SQLAlchemy's `MultipleResultsFound` from `scalar_one_or_none`, or a pydantic
`ValidationError` escaping a response constructor (FastAPI answers 500). -/
inductive ApiError where
  | http : Nat → String → ApiError
  | multipleResults : ApiError
  | validationError : ApiError
deriving DecidableEq

/-- SQLAlchemy `Result.scalar_one_or_none()`: `none` for no row, the row when
there is exactly one, and `MultipleResultsFound` otherwise. -/
def scalarOneOrNone {α : Type} (l : List α) : Except ApiError (Option α) :=
  match l with
  | [] => Except.ok none
  | [a] => Except.ok (some a)
  | _ => Except.error ApiError.multipleResults

/-- A fresh autoincrement primary key: one past the largest id in use. -/
def freshId (ids : List Nat) : Nat := ids.foldr max 0 + 1

/-- Python truthiness on `game.price_per_player` as both budget computations
use it: `float(game.price_per_player) if game.price_per_player else 0`
(`None` and `Decimal(0)` are falsy; both collapse to 0). -/
def priceOrZero (game : GameSchedule) : Money :=
  match game.price_per_player with
  | some p => if p = 0 then 0 else p
  | none => 0

/-- Python `game.max_players or d`: `None` and `0` are falsy. -/
def maxPlayersOr (game : GameSchedule) (d : Nat) : Nat :=
  match game.max_players with
  | some m => if m = 0 then d else m
  | none => d

/-- The confirmed payments of one game: rows of `event_payments` with this
`game_id` and `status == "confirmed"`, the condition every aggregate of
payments.py and budget_analytics_job.py filters by. -/
def confirmedPayments (db : DB) (gid : Nat) : List EventPayment :=
  db.event_payments.filter (fun p => p.game_id == gid && p.status == "confirmed")

/-- SQL `SUM(col)` over one group: NULL (`none`) when the group has no rows. -/
def sqlSum (l : List Money) : Option Money :=
  if l.isEmpty then none else some l.sum

/-! ## payments.py: create_payment -/

/-- Request body `PaymentCreate` (payments.py). -/
structure PaymentCreate where
  player_id : Nat
  amount : Money
  currency : String
  method : String
  status : String
  external_payment_id : Option String
  notes : Option String
deriving DecidableEq

/-- Response model `PaymentResponse` (payments.py). -/
structure PaymentResponse where
  id : Nat
  game_id : Nat
  player_id : Nat
  player_username : Option String
  player_display_name : Option String
  amount : Money
  currency : String
  paid_at : Timestamp
  method : String
  status : String
  external_payment_id : Option String
deriving DecidableEq

/-- `POST /api/games/{game_id}/payments` (payments.py, `create_payment`).
Verifies the game and the player exist (404 otherwise), rejects a duplicate
(game, player) payment with 400, and otherwise inserts one payment row with
`paid_at = datetime.utcnow()`. On an error the session is never committed, so
the database comes back unchanged. -/
def createPayment (db : DB) (now : Timestamp) (game_id : Nat)
    (payment : PaymentCreate) : Except ApiError PaymentResponse × DB :=
  match scalarOneOrNone (db.games.filter (fun g => g.id == game_id)) with
  | Except.error e => (Except.error e, db)
  | Except.ok none => (Except.error (ApiError.http 404 "Game not found"), db)
  | Except.ok (some _game) =>
    match scalarOneOrNone (db.players.filter (fun p => p.id == payment.player_id)) with
    | Except.error e => (Except.error e, db)
    | Except.ok none => (Except.error (ApiError.http 404 "Player not found"), db)
    | Except.ok (some player) =>
      match scalarOneOrNone (db.event_payments.filter
          (fun ep => ep.game_id == game_id && ep.player_id == payment.player_id)) with
      | Except.error e => (Except.error e, db)
      | Except.ok (some _) =>
        (Except.error (ApiError.http 400 "Payment already exists for this player and game"), db)
      | Except.ok none =>
        let new_payment : EventPayment :=
          { id := freshId (db.event_payments.map (·.id))
            game_id := game_id
            player_id := payment.player_id
            amount := payment.amount
            currency := payment.currency
            paid_at := now
            method := payment.method
            status := payment.status
            external_payment_id := payment.external_payment_id
            notes := payment.notes }
        (Except.ok
          { id := new_payment.id
            game_id := new_payment.game_id
            player_id := new_payment.player_id
            player_username := player.username
            player_display_name := player.display_name
            amount := new_payment.amount
            currency := new_payment.currency
            paid_at := new_payment.paid_at
            method := new_payment.method
            status := new_payment.status
            external_payment_id := new_payment.external_payment_id },
         { db with event_payments := db.event_payments ++ [new_payment] })

/-! ## payments.py: get_game_budget -/

/-- Response item `PlayerSummary` (payments.py). -/
structure PlayerSummary where
  player_id : Nat
  telegram_user_id : Option Int
  username : Option String
  display_name : Option String
  amount_due : Money
  paid : Bool
  payment_id : Option Nat
deriving DecidableEq

/-- Response model `BudgetResponse` (payments.py). -/
structure BudgetResponse where
  game_id : Nat
  game_date : Timestamp
  location : String
  price_per_player : Money
  max_players : Option Nat
  expected_income : Money
  actual_income : Money
  number_of_payers : Nat
  registered_players : Nat
  paid_players : List PlayerSummary
  unpaid_players : List PlayerSummary
deriving DecidableEq

/-- The inner join `select(EventPayment, Player).join(Player,
EventPayment.player_id == Player.id)` over this game's confirmed payments.
`players.id` is the primary key, so the first matching player is the row. -/
def paymentsWithPlayers (db : DB) (gid : Nat) : List (EventPayment × Player) :=
  (confirmedPayments db gid).filterMap
    (fun pay => (db.players.find? (fun pl => pl.id == pay.player_id)).map
      (fun pl => (pay, pl)))

/-- The outer join of "I'm in!" votes (option 0) of a poll with `Player` on
`PollVote.user_id == Player.telegram_user_id`: the player side is `none` when
no player row carries that Telegram user id. -/
def registeredVoters (db : DB) (poll : Poll) : List (PollVote × Option Player) :=
  (db.poll_votes.filter (fun v => v.poll_id == poll.poll_id && v.option_id == 0)).map
    (fun v => (v, db.players.find? (fun pl => pl.telegram_user_id == some v.user_id)))

/-- `GET /api/games/{game_id}/budget` (payments.py, `get_game_budget`).
The endpoint is read only: it issues no `db.add` and no mutation, so it
returns a response alone. The game poll is looked up with
`scalar_one_or_none` (the `order_by` cannot rescue it from
`MultipleResultsFound` when a game has two game polls). -/
def getGameBudget (db : DB) (game_id : Nat) : Except ApiError BudgetResponse :=
  match scalarOneOrNone (db.games.filter (fun g => g.id == game_id)) with
  | Except.error e => Except.error e
  | Except.ok none => Except.error (ApiError.http 404 "Game not found")
  | Except.ok (some game) =>
    let payments_with_players := paymentsWithPlayers db game_id
    let actual_income : Money := (payments_with_players.map (fun pp => pp.1.amount)).sum
    let number_of_payers := payments_with_players.length
    match scalarOneOrNone (db.polls.filter
        (fun p => p.game_id == some game_id && p.poll_type == "game")) with
    | Except.error e => Except.error e
    | Except.ok poll? =>
      let registered_players : List (PollVote × Option Player) :=
        match poll? with
        | some poll => registeredVoters db poll
        | none => []
      let paid_player_ids := payments_with_players.map (fun pp => pp.1.player_id)
      let paid_players : List PlayerSummary := payments_with_players.map (fun pp =>
        { player_id := pp.2.id
          telegram_user_id := pp.2.telegram_user_id
          username := pp.2.username
          display_name := pp.2.display_name
          amount_due := priceOrZero game
          paid := true
          payment_id := some pp.1.id })
      let unpaid_players : List PlayerSummary := registered_players.filterMap (fun vp =>
        match vp.2 with
        | some player =>
          if paid_player_ids.contains player.id then none
          else some
            { player_id := player.id
              telegram_user_id := player.telegram_user_id
              username := player.username
              display_name := player.display_name
              amount_due := priceOrZero game
              paid := false
              payment_id := none }
        | none => none)
      let price := priceOrZero game
      let expected_income : Money :=
        match game.max_players with
        | some m =>
          if m = 0 then
            (if registered_players.isEmpty then 0 else price * registered_players.length)
          else price * m
        | none =>
          if registered_players.isEmpty then 0 else price * registered_players.length
      Except.ok
        { game_id := game.id
          game_date := game.game_date
          location := game.location
          price_per_player := price
          max_players := game.max_players
          expected_income := expected_income
          actual_income := actual_income
          number_of_payers := number_of_payers
          registered_players := registered_players.length
          paid_players := paid_players
          unpaid_players := unpaid_players }

/-! ## payments.py and budget_analytics_job.py: the historical forecast -/

/-- Response model `ForecastResponse` (payments.py). `historical_data` is a
JSON dict; `none` stands for the empty dict `{}`. -/
structure ForecastResponse where
  game_id : Nat
  game_date : Timestamp
  forecasted_players : Int
  forecasted_income : Money
  confidence_level : String
  method : String
  historical_data : Option ForecastMeta
deriving DecidableEq

/-- The WHERE clause of the historical query shared by `get_game_forecast`
(payments.py) and `compute_forecast_for_game` (budget_analytics_job.py):
`game_date` strictly between `utcnow() - 90 days` and `utcnow()`,
`extract('dow', game_date) == game.game_date.weekday()` (the SQL day-of-week
against the Python weekday), and the same location. -/
def histGameFilter (game : GameSchedule) (now : Timestamp) (g : GameSchedule) : Bool :=
  decide (g.game_date < now) &&
  decide (now - 90 * secondsPerDay < g.game_date) &&
  sqlDow g.game_date == pyWeekday game.game_date &&
  g.location == game.location

/-- The historical games the forecast query groups over. -/
def histGames (db : DB) (now : Timestamp) (game : GameSchedule) : List GameSchedule :=
  db.games.filter (histGameFilter game now)

/-- One row of the grouped historical query: a game id with
`count(EventPayment.id)` and `sum(EventPayment.amount)` over its confirmed
payments (an outer join: a game with no confirmed payment keeps count 0 and a
NULL sum). -/
structure HistRow where
  id : Nat
  payment_count : Nat
  total_revenue : Option Money
deriving DecidableEq

/-- The result set `historical_games` of the grouped query. -/
def historicalRows (db : DB) (now : Timestamp) (game : GameSchedule) : List HistRow :=
  (histGames db now game).map (fun g =>
    { id := g.id
      payment_count := (confirmedPayments db g.id).length
      total_revenue := sqlSum ((confirmedPayments db g.id).map (·.amount)) })

/-- `"high" if len >= 5 else "medium" if len >= 2 else "low"`. -/
def confidenceFor (n : Nat) : String :=
  if n ≥ 5 then "high" else if n ≥ 2 then "medium" else "low"

/-- `avg_players = sum(g.payment_count for g in historical_games) /
len(historical_games)`: an exact integer sum, then true division. -/
def avgPlayers (rows : List HistRow) : ℚ :=
  ((rows.map (·.payment_count)).sum : ℚ) / (rows.length : ℚ)

/-- `avg_revenue = sum(float(g.total_revenue or 0) for g in historical_games)
/ len(historical_games)`: a NULL sum contributes 0. -/
def avgRevenue (rows : List HistRow) : ℚ :=
  (rows.map (fun r => r.total_revenue.getD 0)).sum / (rows.length : ℚ)

/-- Python `int(round(x))` on the (nonnegative) float average: round to the
nearest integer, ties to the even one. -/
def pyRound (q : ℚ) : ℤ :=
  if q - ⌊q⌋ < 1 / 2 then ⌊q⌋
  else if 1 / 2 < q - ⌊q⌋ then ⌊q⌋ + 1
  else if 2 ∣ ⌊q⌋ then ⌊q⌋ else ⌊q⌋ + 1

/-- What `compute_forecast_for_game` (budget_analytics_job.py) returns; the
inline computation of `get_game_forecast` (payments.py) produces the same
values from the same query. -/
structure ForecastData where
  forecasted_players : Int
  forecasted_income : Money
  confidence_level : String
  method : String
  metadata : ForecastMeta
deriving DecidableEq

/-- `compute_forecast_for_game` (budget_analytics_job.py): the historical
averages when the sample is nonempty, else the `max_players or 16` /
`price * players` fallback with confidence `"low"`. -/
def computeForecastForGame (db : DB) (now : Timestamp) (game : GameSchedule) :
    ForecastData :=
  let game_weekday := pyWeekday game.game_date
  let historical_games := historicalRows db now game
  if historical_games.isEmpty then
    let forecasted_players := maxPlayersOr game 16
    { forecasted_players := (forecasted_players : Int)
      forecasted_income := priceOrZero game * (forecasted_players : Money)
      confidence_level := "low"
      method := "historical_average"
      metadata :=
        { historical_games_count := historical_games.length
          weekday := game_weekday
          location := game.location } }
  else
    { forecasted_players := pyRound (avgPlayers historical_games)
      forecasted_income := avgRevenue historical_games
      confidence_level := confidenceFor historical_games.length
      method := "historical_average"
      metadata :=
        { historical_games_count := historical_games.length
          weekday := game_weekday
          location := game.location } }

/-- The compute-and-cache tail of `get_game_forecast` (payments.py, the code
past the cache-freshness check): recompute from the historical data, then
update the existing `forecast_cache` row in place (not touching its `method`)
or insert a new row, and answer with the recomputed values. The code's
`cached_forecast.metadata = {...}` assignment and `metadata=` constructor
keyword hit the reserved SQLAlchemy attribute, not the `forecast_metadata`
column: the update leaves that column as it was and the inserted row keeps
its NULL default, while the response's `historical_data` is built from the
local dict and is unaffected. -/
def forecastComputeBranch (db : DB) (now : Timestamp) (game : GameSchedule)
    (game_id : Nat) (cached_forecast : Option ForecastCache) :
    Except ApiError ForecastResponse × DB :=
  let game_weekday := pyWeekday game.game_date
  let historical_games := historicalRows db now game
  let computed : Int × Money × String :=
    if historical_games.isEmpty then
      let forecasted_players := maxPlayersOr game 16
      ((forecasted_players : Int), priceOrZero game * (forecasted_players : Money), "low")
    else
      (pyRound (avgPlayers historical_games), avgRevenue historical_games,
        confidenceFor historical_games.length)
  let forecasted_players := computed.1
  let forecasted_income := computed.2.1
  let confidence := computed.2.2
  let meta : ForecastMeta :=
    { historical_games_count := historical_games.length
      weekday := game_weekday
      location := game.location }
  let db' : DB :=
    match cached_forecast with
    | some _ =>
      { db with forecast_cache := db.forecast_cache.map (fun row =>
          if row.game_id == game_id then
            { row with
                forecasted_players := forecasted_players
                forecasted_income := forecasted_income
                confidence_level := confidence
                computed_at := now }
          else row) }
    | none =>
      { db with forecast_cache := db.forecast_cache ++
          [{ id := freshId (db.forecast_cache.map (·.id))
             game_id := game_id
             forecasted_players := forecasted_players
             forecasted_income := forecasted_income
             confidence_level := confidence
             method := "historical_average"
             forecast_metadata := none
             computed_at := now }] }
  (Except.ok
    { game_id := game.id
      game_date := game.game_date
      forecasted_players := forecasted_players
      forecasted_income := forecasted_income
      confidence_level := confidence
      method := "historical_average"
      historical_data := some meta }, db')

/-- `GET /api/games/{game_id}/forecast` (payments.py, `get_game_forecast`):
404 for a missing game; otherwise a stale or missing `forecast_cache` row is
recomputed and written back. The fresh-cache branch intends to answer from
the cache, but `cached_forecast.metadata or {}` reads the reserved
SQLAlchemy `Base.metadata` registry (a truthy non-dict), so
`ForecastResponse(historical_data=...)` fails pydantic validation and the
request errors instead of returning the cached values. -/
def getGameForecast (db : DB) (now : Timestamp) (game_id : Nat) :
    Except ApiError ForecastResponse × DB :=
  match scalarOneOrNone (db.games.filter (fun g => g.id == game_id)) with
  | Except.error e => (Except.error e, db)
  | Except.ok none => (Except.error (ApiError.http 404 "Game not found"), db)
  | Except.ok (some game) =>
    match scalarOneOrNone (db.forecast_cache.filter (fun c => c.game_id == game_id)) with
    | Except.error e => (Except.error e, db)
    | Except.ok (some cached_forecast) =>
      if now - cached_forecast.computed_at < 24 * 3600 then
        (Except.error ApiError.validationError, db)
      else forecastComputeBranch db now game game_id (some cached_forecast)
    | Except.ok none => forecastComputeBranch db now game game_id none

/-! ## budget_analytics_job.py -/

/-- The dict `compute_budget_for_game` (budget_analytics_job.py) returns. -/
structure BudgetData where
  expected_income : Money
  actual_income : Money
  number_of_payers : Nat
  expected_players : Nat
  registered_players : Nat
  paid_players_list : List PlayerInfo
  unpaid_players_list : List PlayerInfo
deriving DecidableEq

/-- `compute_budget_for_game` (budget_analytics_job.py). Unlike the budget
endpoint it splits the registered voters into paid and unpaid lists and also
derives `expected_players = game.max_players or registered_count`. The game
poll is looked up with `scalar_one_or_none`, so two game polls raise. -/
def computeBudgetForGame (db : DB) (game : GameSchedule) :
    Except ApiError BudgetData :=
  let payments_with_players := paymentsWithPlayers db game.id
  let actual_income : Money := (payments_with_players.map (fun pp => pp.1.amount)).sum
  let number_of_payers := payments_with_players.length
  match scalarOneOrNone (db.polls.filter
      (fun p => p.game_id == some game.id && p.poll_type == "game")) with
  | Except.error e => Except.error e
  | Except.ok poll? =>
    let registered_players : List (PollVote × Option Player) :=
      match poll? with
      | some poll => registeredVoters db poll
      | none => []
    let registered_count := registered_players.length
    let paid_player_ids := payments_with_players.map (fun pp => pp.1.player_id)
    let present := registered_players.filterMap (fun vp => vp.2)
    let paid_players : List PlayerInfo :=
      (present.filter (fun player => paid_player_ids.contains player.id)).map
        (fun player =>
          { player_id := player.id
            telegram_user_id := player.telegram_user_id
            username := player.username
            display_name := player.display_name })
    let unpaid_players : List PlayerInfo :=
      (present.filter (fun player => !paid_player_ids.contains player.id)).map
        (fun player =>
          { player_id := player.id
            telegram_user_id := player.telegram_user_id
            username := player.username
            display_name := player.display_name })
    let price := priceOrZero game
    let expected_income : Money :=
      match game.max_players with
      | some m =>
        if m = 0 then
          (if registered_count = 0 then 0 else price * registered_count)
        else price * m
      | none =>
        if registered_count = 0 then 0 else price * registered_count
    Except.ok
      { expected_income := expected_income
        actual_income := actual_income
        number_of_payers := number_of_payers
        expected_players := maxPlayersOr game registered_count
        registered_players := registered_count
        paid_players_list := paid_players
        unpaid_players_list := unpaid_players }

/-- The budget-cache upsert of the job loop: update the single existing row
for the game in place (`computed_at = utcnow()`), or add a new row. -/
def upsertBudgetCache (db : DB) (now : Timestamp) (game : GameSchedule)
    (bd : BudgetData) : Except ApiError DB :=
  match scalarOneOrNone (db.budget_cache.filter (fun c => c.game_id == game.id)) with
  | Except.error e => Except.error e
  | Except.ok (some _) =>
    Except.ok { db with budget_cache := db.budget_cache.map (fun row =>
      if row.game_id == game.id then
        { row with
            expected_income := bd.expected_income
            actual_income := bd.actual_income
            number_of_payers := bd.number_of_payers
            expected_players := bd.expected_players
            registered_players := bd.registered_players
            paid_players_list := bd.paid_players_list
            unpaid_players_list := bd.unpaid_players_list
            computed_at := now }
      else row) }
  | Except.ok none =>
    Except.ok { db with budget_cache := db.budget_cache ++
      [{ id := freshId (db.budget_cache.map (·.id))
         game_id := game.id
         expected_income := bd.expected_income
         actual_income := bd.actual_income
         number_of_payers := bd.number_of_payers
         expected_players := bd.expected_players
         registered_players := bd.registered_players
         paid_players_list := bd.paid_players_list
         unpaid_players_list := bd.unpaid_players_list
         computed_at := now }] }

/-- The forecast-cache upsert of the job loop: update the single existing row
for the game in place (here the `method` field is refreshed too), or add a
new row. As in the endpoint, the job's `forecast_cache.metadata = ...`
assignment and `metadata=` constructor keyword set only the unmapped
reserved attribute: the `forecast_metadata` column keeps its old value on
update and its NULL default on insert. -/
def upsertForecastCache (db : DB) (now : Timestamp) (game : GameSchedule)
    (fd : ForecastData) : Except ApiError DB :=
  match scalarOneOrNone (db.forecast_cache.filter (fun c => c.game_id == game.id)) with
  | Except.error e => Except.error e
  | Except.ok (some _) =>
    Except.ok { db with forecast_cache := db.forecast_cache.map (fun row =>
      if row.game_id == game.id then
        { row with
            forecasted_players := fd.forecasted_players
            forecasted_income := fd.forecasted_income
            confidence_level := fd.confidence_level
            method := fd.method
            computed_at := now }
      else row) }
  | Except.ok none =>
    Except.ok { db with forecast_cache := db.forecast_cache ++
      [{ id := freshId (db.forecast_cache.map (·.id))
         game_id := game.id
         forecasted_players := fd.forecasted_players
         forecasted_income := fd.forecasted_income
         confidence_level := fd.confidence_level
         method := fd.method
         forecast_metadata := none
         computed_at := now }] }

/-- One iteration of the job loop over a game: compute and upsert the budget,
then compute and upsert the forecast, in the same session. -/
def processGame (now : Timestamp) (db : DB) (game : GameSchedule) :
    Except ApiError DB := do
  let budget_data ← computeBudgetForGame db game
  let db1 ← upsertBudgetCache db now game budget_data
  let forecast_data := computeForecastForGame db1 now game
  upsertForecastCache db1 now game forecast_data

/-- ORDER BY `game_date` (ascending). -/
def byGameDate (a b : GameSchedule) : Prop := a.game_date ≤ b.game_date

instance : DecidableRel byGameDate := fun a b =>
  inferInstanceAs (Decidable (a.game_date ≤ b.game_date))

/-- `run_budget_analytics_job` (budget_analytics_job.py): process every game
of the next seven days, committing once at the end; any exception aborts the
run before the commit, so the database is then left as it was. -/
def runBudgetAnalyticsJob (db : DB) (now : Timestamp) : DB :=
  let games := (db.games.filter
    (fun g => decide (now ≤ g.game_date) && decide (g.game_date ≤ now + 7 * secondsPerDay)))
  let games := List.insertionSort byGameDate games
  match games.foldlM (processGame now) db with
  | Except.ok db' => db'
  | Except.error _ => db

/-! ## handlers.py: on_poll_answer -/

/-- An aiogram `PollAnswer` update: the poll, the voter and the chosen option
ids. Telegram sends no timestamp in it — the handler has only `utcnow()`. -/
structure PollAnswer where
  poll_id : String
  user_id : Int
  option_ids : List Nat
deriving DecidableEq

/-- One iteration of `on_poll_answer`'s loop body: look the (poll, user) vote
up with `scalar_one_or_none`; update its `option_id` and `voted_at` in place
when it exists, else insert a new row stamped `datetime.utcnow()`. -/
def recordVote (pa : PollAnswer) (now : Timestamp) (votes : List PollVote)
    (option_id : Nat) : Except ApiError (List PollVote) :=
  match scalarOneOrNone (votes.filter
      (fun v => v.poll_id == pa.poll_id && v.user_id == pa.user_id)) with
  | Except.error e => Except.error e
  | Except.ok (some _) =>
    Except.ok (votes.map (fun v =>
      if v.poll_id == pa.poll_id && v.user_id == pa.user_id then
        { v with option_id := option_id, voted_at := now }
      else v))
  | Except.ok none =>
    Except.ok (votes ++
      [{ id := freshId (votes.map (·.id))
         poll_id := pa.poll_id
         user_id := pa.user_id
         option_id := option_id
         voted_at := now }])

/-- `on_poll_answer` (handlers.py): run the loop over `option_ids` and commit;
an exception rolls the session back, leaving the table unchanged. -/
def onPollAnswer (db : DB) (pa : PollAnswer) (now : Timestamp) : DB :=
  match pa.option_ids.foldlM (recordVote pa now) db.poll_votes with
  | Except.ok votes => { db with poll_votes := votes }
  | Except.error _ => db

/-! ## routes.py -/

/-- Response model `PlayerResponse` (routes.py). -/
structure PlayerResponse where
  id : Nat
  telegram_user_id : Option Int
  username : Option String
  display_name : Option String
  skill_rating : Option ℚ
  preferred_position : Option String
deriving DecidableEq

/-- `PlayerResponse.model_validate(player)`. -/
def playerResponseOf (p : Player) : PlayerResponse :=
  { id := p.id
    telegram_user_id := p.telegram_user_id
    username := p.username
    display_name := p.display_name
    skill_rating := p.skill_rating
    preferred_position := p.preferred_position }

/-- Response model `GameResponse` (routes.py). -/
structure GameResponse where
  id : Nat
  game_date : Timestamp
  location : String
  description : Option String
deriving DecidableEq

/-- `GameResponse.model_validate(game)`. -/
def gameResponseOf (g : GameSchedule) : GameResponse :=
  { id := g.id
    game_date := g.game_date
    location := g.location
    description := g.description }

/-- Response model `NextGamePlayersResponse` (routes.py). -/
structure NextGamePlayersResponse where
  game : Option GameResponse
  players : List PlayerResponse
  total_count : Nat
deriving DecidableEq

/-- ORDER BY `voted_at` (ascending). -/
def byVotedAt (a b : PollVote) : Prop := a.voted_at ≤ b.voted_at

instance : DecidableRel byVotedAt := fun a b =>
  inferInstanceAs (Decidable (a.voted_at ≤ b.voted_at))

instance : IsTotal PollVote byVotedAt := ⟨fun a b => le_total a.voted_at b.voted_at⟩

instance : IsTrans PollVote byVotedAt := ⟨fun _ _ _ h1 h2 => le_trans h1 h2⟩

/-- ORDER BY `created_at` DESC over the nullable `polls.created_at`, under
PostgreSQL's default ordering, which puts NULLs first on a DESC sort. -/
def byCreatedDesc (a b : Poll) : Prop :=
  match a.created_at, b.created_at with
  | none, _ => True
  | some _, none => False
  | some x, some y => y ≤ x

instance : DecidableRel byCreatedDesc := fun a b =>
  match a, b with
  | ⟨_, _, _, _, _, none, _⟩, _ => isTrue trivial
  | ⟨_, _, _, _, _, some _, _⟩, ⟨_, _, _, _, _, none, _⟩ => isFalse (fun h => h)
  | ⟨_, _, _, _, _, some x, _⟩, ⟨_, _, _, _, _, some y, _⟩ =>
    inferInstanceAs (Decidable (y ≤ x))

/-- `GET /api/games/next/players` (routes.py, `get_next_game_players`):
the next scheduled game (first `game_date` after now), the most recent game
poll, its votes in `voted_at` order limited to `limit`, and each vote's
player looked up by Telegram user id — a vote with no matching player row is
silently dropped. `limit` arrives through `Query(18, ge=1, le=100)`. -/
def getNextGamePlayers (db : DB) (now : Timestamp) (limit : Nat) :
    NextGamePlayersResponse :=
  let upcoming := db.games.filter (fun g => decide (now < g.game_date))
  match (List.insertionSort byGameDate upcoming).head? with
  | none => { game := none, players := [], total_count := 0 }
  | some next_game =>
    match (List.insertionSort byCreatedDesc
        (db.polls.filter (fun p => p.poll_type == "game"))).head? with
    | none => { game := some (gameResponseOf next_game), players := [], total_count := 0 }
    | some poll =>
      let votes := (List.insertionSort byVotedAt
        (db.poll_votes.filter (fun v => v.poll_id == poll.poll_id))).take limit
      let ordered_players := votes.filterMap (fun v =>
        db.players.find? (fun p => p.telegram_user_id == some v.user_id))
      { game := some (gameResponseOf next_game)
        players := ordered_players.map playerResponseOf
        total_count := ordered_players.length }

/-- Equality of `Except` results is decidable when both sides are. -/
instance {ε α : Type} [DecidableEq ε] [DecidableEq α] : DecidableEq (Except ε α)
  | Except.ok a, Except.ok b =>
    if h : a = b then isTrue (by rw [h]) else isFalse (by simp [h])
  | Except.ok _, Except.error _ => isFalse (by simp)
  | Except.error _, Except.ok _ => isFalse (by simp)
  | Except.error e, Except.error f =>
    if h : e = f then isTrue (by rw [h]) else isFalse (by simp [h])

/-! ## Derived views used by the statements -/

/-- The votes of one (poll, user) pair — the unique-index key `on_poll_answer`
upserts by. -/
def keyVotes (votes : List PollVote) (pa : PollAnswer) : List PollVote :=
  votes.filter (fun v => v.poll_id == pa.poll_id && v.user_id == pa.user_id)

/-- The votes of every other (poll, user) pair. -/
def nonKeyVotes (votes : List PollVote) (pa : PollAnswer) : List PollVote :=
  votes.filter (fun v => !(v.poll_id == pa.poll_id && v.user_id == pa.user_id))

/-- Each game appears in at most one `budget_cache` row and at most one
`forecast_cache` row: the `unique=True` constraint on both `game_id` columns. -/
def cacheKeysUnique (db : DB) : Prop :=
  (db.budget_cache.map (·.game_id)).Nodup ∧ (db.forecast_cache.map (·.game_id)).Nodup

instance (db : DB) : Decidable (cacheKeysUnique db) := by
  unfold cacheKeysUnique; infer_instance

/-! ## Concrete instances for the witnesses and counterexamples -/

/-- A game with no price and no player cap. -/
def exBudgetGame : GameSchedule :=
  { id := 1, game_date := 1728259200, location := "Beach", description := none
    price_per_player := none, max_players := none }

/-- A `budget_cache` row for game 1 whose figures disagree with the live
tables (7 payers against none) and whose `computed_at` is the epoch. -/
def exStaleBudgetRow : BudgetCache :=
  { id := 1, game_id := 1, expected_income := 100, actual_income := 50
    number_of_payers := 7, expected_players := 10, registered_players := 9
    paid_players_list := [], unpaid_players_list := [], computed_at := 0 }

/-- Game 1 with the stale cache row and otherwise empty tables. -/
def dbBudgetCex : DB :=
  { players := [], games := [exBudgetGame], polls := [], poll_votes := []
    event_payments := [], budget_cache := [exStaleBudgetRow], forecast_cache := [] }

/-- The response `get_game_budget` computes for `dbBudgetCex`: all zero. -/
def exBudgetResp : BudgetResponse :=
  { game_id := 1, game_date := 1728259200, location := "Beach"
    price_per_player := 0, max_players := none, expected_income := 0
    actual_income := 0, number_of_payers := 0, registered_players := 0
    paid_players := [], unpaid_players := [] }

/-- 2024-10-07 00:00 UTC (epoch day 20003, a Monday). -/
def dowNow : Timestamp := 1728259200

/-- The target game: Monday 2024-10-07, 01:00 UTC, at "Beach". -/
def dowTargetGame : GameSchedule :=
  { id := 1, game_date := 1728262800, location := "Beach", description := none
    price_per_player := none, max_players := none }

/-- A past game the Monday before, 2024-09-30, same location: same Python
weekday as the target. -/
def dowMonGame : GameSchedule :=
  { id := 2, game_date := 1727654400, location := "Beach", description := none
    price_per_player := none, max_players := none }

/-- A past game on Sunday 2024-09-29, same location: a different weekday. -/
def dowSunGame : GameSchedule :=
  { id := 3, game_date := 1727568000, location := "Beach", description := none
    price_per_player := none, max_players := none }

/-- The three games together. -/
def dbDow : DB :=
  { players := [], games := [dowTargetGame, dowMonGame, dowSunGame], polls := []
    poll_votes := [], event_payments := [], budget_cache := [], forecast_cache := [] }

/-- A target game for the mean computation: Monday 2024-10-07 at "Court". -/
def meanTargetGame : GameSchedule :=
  { id := 10, game_date := 1728262800, location := "Court", description := none
    price_per_player := some 25, max_players := some 12 }

/-- Historical game, Sunday 2024-09-29 at "Court" (the weekday the buggy dow
comparison selects for a Monday target). -/
def meanHistG1 : GameSchedule :=
  { id := 11, game_date := 1727568000, location := "Court", description := none
    price_per_player := some 25, max_players := some 12 }

/-- Historical game, Sunday 2024-09-22 at "Court". -/
def meanHistG2 : GameSchedule :=
  { id := 12, game_date := 1726963200, location := "Court", description := none
    price_per_player := some 25, max_players := some 12 }

/-- A confirmed 10-payment on game 11. -/
def meanPay1 : EventPayment :=
  { id := 1, game_id := 11, player_id := 1, amount := 10, currency := "ILS"
    paid_at := 0, method := "paybox", status := "confirmed"
    external_payment_id := none, notes := none }

/-- A confirmed 20-payment on game 11. -/
def meanPay2 : EventPayment :=
  { id := 2, game_id := 11, player_id := 2, amount := 20, currency := "ILS"
    paid_at := 0, method := "paybox", status := "confirmed"
    external_payment_id := none, notes := none }

/-- Two historical games, one with two confirmed payments and one with none. -/
def dbMean : DB :=
  { players := [], games := [meanTargetGame, meanHistG1, meanHistG2], polls := []
    poll_votes := [], event_payments := [meanPay1, meanPay2], budget_cache := []
    forecast_cache := [] }

/-- A game for the forecast-cache scenarios. -/
def fcGame : GameSchedule :=
  { id := 1, game_date := 1728262800, location := "Beach", description := none
    price_per_player := none, max_players := none }

/-- A cached forecast computed at 1728000000, whose `forecast_metadata`
column holds an old dict (put there outside the embedded code paths, which
never write that column). -/
def fcCacheRow : ForecastCache :=
  { id := 1, game_id := 1, forecasted_players := 12, forecasted_income := 300
    confidence_level := "medium", method := "historical_average"
    forecast_metadata := some
      { historical_games_count := 7, weekday := 5, location := "Old" }
    computed_at := 1728000000 }

/-- Game 1 with one forecast-cache row. -/
def dbFc : DB :=
  { players := [], games := [fcGame], polls := [], poll_votes := []
    event_payments := [], budget_cache := [], forecast_cache := [fcCacheRow] }

/-- Game 1 with no forecast-cache row at all. -/
def dbFcEmpty : DB := { dbFc with forecast_cache := [] }

/-- An existing vote of user 5 on poll "p1". -/
def exVote : PollVote :=
  { id := 1, poll_id := "p1", user_id := 5, option_id := 0, voted_at := 100 }

/-- A vote of another user on the same poll. -/
def exOtherVote : PollVote :=
  { id := 2, poll_id := "p1", user_id := 6, option_id := 1, voted_at := 50 }

/-- Both votes in one table. -/
def dbVotes : DB :=
  { players := [], games := [], polls := [], poll_votes := [exVote, exOtherVote]
    event_payments := [], budget_cache := [], forecast_cache := [] }

/-- User 5 answers poll "p1" again, now choosing option 2. -/
def exPollAnswer : PollAnswer := { poll_id := "p1", user_id := 5, option_ids := [2] }

/-- An upcoming game for the job run. -/
def exJobGame : GameSchedule :=
  { id := 1, game_date := 1728300000, location := "Beach", description := none
    price_per_player := none, max_players := none }

/-- One upcoming game and one existing cache row in each cache table. -/
def dbCaches : DB :=
  { players := [], games := [exJobGame], polls := [], poll_votes := []
    event_payments := [], budget_cache := [exStaleBudgetRow]
    forecast_cache := [fcCacheRow] }

/-- A game players can pay for. -/
def exPayGame : GameSchedule :=
  { id := 1, game_date := 1728262800, location := "Beach", description := none
    price_per_player := some 25, max_players := some 12 }

/-- A player with id 2. -/
def exPayPlayer : Player :=
  { id := 2, telegram_user_id := some 500, username := some "alice"
    display_name := none, skill_rating := none, preferred_position := none }

/-- One game, one player, no payments yet. -/
def dbPay : DB :=
  { players := [exPayPlayer], games := [exPayGame], polls := [], poll_votes := []
    event_payments := [], budget_cache := [], forecast_cache := [] }

/-- A payment request for player 2. -/
def exPaymentCreate : PaymentCreate :=
  { player_id := 2, amount := 25, currency := "ILS", method := "paybox"
    status := "confirmed", external_payment_id := none, notes := none }

/-- The same request for a player id nobody has. -/
def exPaymentCreateMissing : PaymentCreate := { exPaymentCreate with player_id := 3 }

/-- An upcoming game for the roster endpoint. -/
def exNextGame : GameSchedule :=
  { id := 1, game_date := 1000, location := "Beach", description := none
    price_per_player := none, max_players := none }

/-- Its game poll. -/
def exNextPoll : Poll :=
  { id := 1, poll_id := "p1", poll_type := "game", title := "In?"
    game_id := some 1, created_at := some 50, closed_at := none }

/-- A vote at t = 10 by a user who has a player row. -/
def exNextV1 : PollVote :=
  { id := 1, poll_id := "p1", user_id := 100, option_id := 0, voted_at := 10 }

/-- An earlier vote at t = 5 by a user with no player row. -/
def exNextV2 : PollVote :=
  { id := 2, poll_id := "p1", user_id := 200, option_id := 0, voted_at := 5 }

/-- The player row of user 100. -/
def exNextPlayer : Player :=
  { id := 1, telegram_user_id := some 100, username := none, display_name := none
    skill_rating := none, preferred_position := none }

/-- Game, poll, two votes, one matching player. -/
def dbNext : DB :=
  { players := [exNextPlayer], games := [exNextGame], polls := [exNextPoll]
    poll_votes := [exNextV1, exNextV2], event_payments := [], budget_cache := []
    forecast_cache := [] }

/-! ## Helper lemmas -/

theorem scalarOneOrNone_eq_none {α : Type} {l : List α} (h : l = []) :
    scalarOneOrNone l = Except.ok none := by
  subst h; rfl

theorem scalarOneOrNone_eq_some {α : Type} {l : List α} {a : α} (h : l = [a]) :
    scalarOneOrNone l = Except.ok (some a) := by
  subst h; rfl

theorem filter_map_ite_pos {α : Type} (p : α → Bool) (f : α → α)
    (hpf : ∀ x, p (f x) = p x) (l : List α) :
    (l.map (fun x => if p x then f x else x)).filter p = (l.filter p).map f := by
  induction l with
  | nil => rfl
  | cons a t ih =>
    by_cases h : p a
    · simp [h, hpf, ih]
    · simp [h, ih]

theorem filter_map_ite_neg {α : Type} (p : α → Bool) (f : α → α)
    (hpf : ∀ x, p (f x) = p x) (l : List α) :
    (l.map (fun x => if p x then f x else x)).filter (fun x => !p x)
      = l.filter (fun x => !p x) := by
  induction l with
  | nil => rfl
  | cons a t ih =>
    by_cases h : p a
    · simp [h, hpf, ih]
    · simp [h, ih]

theorem map_key_ite {α β : Type} (p : α → Bool) (f : α → α) (key : α → β)
    (hk : ∀ x, p x = true → key (f x) = key x) (l : List α) :
    (l.map (fun x => if p x then f x else x)).map key = l.map key := by
  induction l with
  | nil => rfl
  | cons a t ih =>
    by_cases h : p a
    · simp [h, hk a h, ih]
    · simp [h, ih]

/-! ## C2: the budget endpoint against the budget cache -/

/-- C2, counterexample: for `dbBudgetCex` the `budget_cache` row of game 1
says 7 payers and 50 of income, yet `get_game_budget` answers 0 payers and 0
income computed from the live tables; so the endpoint does not return the
cache row (fresh or not), and since it is read only (no write, no
`computed_at` refresh) it does not refresh a stale row either. -/
theorem getGameBudget_cache_counterexample :
    getGameBudget dbBudgetCex 1 = Except.ok exBudgetResp
  ∧ exBudgetResp.number_of_payers = 0
  ∧ exBudgetResp.actual_income = 0
  ∧ dbBudgetCex.budget_cache.map
      (fun c => (c.game_id, c.number_of_payers, c.actual_income, c.computed_at))
      = [(1, 7, 50, 0)] := by
  decide

/-- C2, amended: `get_game_budget` computes its response from the game,
payment, player and poll tables on every call and never consults
`budget_cache` — the response is the same whatever that table holds (and the
endpoint performs no write at all, so no row is refreshed on read). -/
theorem getGameBudget_ignores_budget_cache (db : DB) (gid : Nat)
    (bc : List BudgetCache) :
    getGameBudget { db with budget_cache := bc } gid = getGameBudget db gid := by
  cases db
  rfl

/-! ## C3: the weekday filter of the historical query -/

/-- C3, divergence witness: for the Monday target game, the same-weekday
same-location game of the Monday before (inside the 90-day window) is not in
the historical sample, while the Sunday game is: the query compares
PostgreSQL's `extract('dow', …)` (Sunday = 0) with Python's
`datetime.weekday()` (Monday = 0), one day apart. -/
theorem forecast_weekday_off_by_one :
    (histGames dbDow dowNow dowTargetGame).map (·.id) = [3]
  ∧ dowMonGame ∈ dbDow.games
  ∧ dowMonGame.location = dowTargetGame.location
  ∧ dowMonGame.game_date < dowNow
  ∧ dowNow - 90 * secondsPerDay < dowMonGame.game_date
  ∧ pyWeekday dowMonGame.game_date = pyWeekday dowTargetGame.game_date
  ∧ pyWeekday dowSunGame.game_date ≠ pyWeekday dowTargetGame.game_date := by
  decide

/-! ## C4 and C5: the computed forecast -/

theorem sqlSum_getD (l : List Money) : (sqlSum l).getD 0 = l.sum := by
  by_cases h : l.isEmpty
  · rw [List.isEmpty_iff.mp h]; simp [sqlSum]
  · simp [sqlSum, h]

theorem histGames_nil_of_isEmpty {db : DB} {now : Timestamp} {game : GameSchedule}
    (h : (historicalRows db now game).isEmpty) : histGames db now game = [] := by
  rw [List.isEmpty_iff] at h
  unfold historicalRows at h
  exact List.map_eq_nil_iff.mp h

theorem computeForecastForGame_confidence (db : DB) (now : Timestamp)
    (game : GameSchedule) :
    (computeForecastForGame db now game).confidence_level
      = confidenceFor (histGames db now game).length := by
  by_cases h : (historicalRows db now game).isEmpty
  · have hg : histGames db now game = [] := histGames_nil_of_isEmpty h
    simp [computeForecastForGame, h, hg, confidenceFor]
  · have hg : histGames db now game ≠ [] := by
      intro h0
      apply h
      rw [List.isEmpty_iff]
      unfold historicalRows
      rw [h0]; rfl
    simp [computeForecastForGame, h, historicalRows, hg]

theorem forecastComputeBranch_fst (db : DB) (now : Timestamp) (game : GameSchedule)
    (game_id : Nat) (cached : Option ForecastCache) :
    (forecastComputeBranch db now game game_id cached).1 = Except.ok
      { game_id := game.id
        game_date := game.game_date
        forecasted_players := (computeForecastForGame db now game).forecasted_players
        forecasted_income := (computeForecastForGame db now game).forecasted_income
        confidence_level := (computeForecastForGame db now game).confidence_level
        method := "historical_average"
        historical_data := some (computeForecastForGame db now game).metadata } := by
  by_cases h : (historicalRows db now game).isEmpty <;>
    cases cached <;>
      simp [forecastComputeBranch, computeForecastForGame, h]

/-- C4: the confidence label of the computed forecast takes only the values
"high", "medium" and "low", is a function of the historical sample size
alone (both in the job's `compute_forecast_for_game` and in the endpoint's
compute branch, where the no-data fallback also lands on "low" =
`confidenceFor 0`), and the thresholds are exactly ≥ 5, 2–4 and < 2. -/
theorem forecast_confidence_three_tier (db : DB) (now : Timestamp)
    (game : GameSchedule) :
    ((computeForecastForGame db now game).confidence_level
        = confidenceFor (histGames db now game).length)
  ∧ (∀ game_id cached, ∃ resp,
        (forecastComputeBranch db now game game_id cached).1 = Except.ok resp
        ∧ resp.confidence_level = confidenceFor (histGames db now game).length)
  ∧ (∀ n, (confidenceFor n = "high" ↔ 5 ≤ n)
        ∧ (confidenceFor n = "medium" ↔ 2 ≤ n ∧ n < 5)
        ∧ (confidenceFor n = "low" ↔ n < 2)) := by
  refine ⟨computeForecastForGame_confidence db now game, ?_, ?_⟩
  · intro game_id cached
    exact ⟨_, forecastComputeBranch_fst db now game game_id cached,
      computeForecastForGame_confidence db now game⟩
  · intro n
    unfold confidenceFor
    split_ifs with h1 h2
    · exact ⟨iff_of_true rfl h1, iff_of_false (by decide) (by omega),
        iff_of_false (by decide) (by omega)⟩
    · exact ⟨iff_of_false (by decide) (by omega), iff_of_true rfl ⟨h2, by omega⟩,
        iff_of_false (by decide) (by omega)⟩
    · exact ⟨iff_of_false (by decide) (by omega), iff_of_false (by decide) (by omega),
        iff_of_true rfl (by omega)⟩

theorem pyRound_near (q : ℚ) : |(pyRound q : ℚ) - q| ≤ 1 / 2 := by
  have h0 : (0 : ℚ) ≤ q - ⌊q⌋ := by
    have h := Int.floor_le q
    linarith
  have h1 : q - ⌊q⌋ < 1 := by
    have h := Int.lt_floor_add_one q
    linarith
  unfold pyRound
  split_ifs with ha hb hc <;> rw [abs_le] <;> constructor <;> push_cast <;> linarith

theorem historicalRows_payment_counts (db : DB) (now : Timestamp)
    (game : GameSchedule) :
    (historicalRows db now game).map (·.payment_count)
      = (histGames db now game).map (fun g => (confirmedPayments db g.id).length) := by
  unfold historicalRows
  rw [List.map_map]
  rfl

theorem historicalRows_revenues (db : DB) (now : Timestamp) (game : GameSchedule) :
    (historicalRows db now game).map (fun r => r.total_revenue.getD 0)
      = (histGames db now game).map
          (fun g => ((confirmedPayments db g.id).map (·.amount)).sum) := by
  unfold historicalRows
  rw [List.map_map]
  apply List.map_congr_left
  intro g _
  exact sqlSum_getD _

/-- C5: with a nonempty historical sample, `forecasted_players` is within one
half of the mean of the per-game confirmed-payment counts (the code rounds
that mean to the nearest integer, ties to even) and `forecasted_income` is
exactly the mean of the per-game confirmed revenue totals, a game with no
confirmed payment contributing 0; with an empty sample the fallback is
`max_players or 16` players and `price_per_player` times that count. The
endpoint's compute branch reports the same two numbers. -/
theorem forecast_mean_and_fallback (db : DB) (now : Timestamp) (game : GameSchedule) :
    (histGames db now game ≠ [] →
        |((computeForecastForGame db now game).forecasted_players : ℚ)
            - ((histGames db now game).map
                (fun g => ((confirmedPayments db g.id).length : ℚ))).sum
              / ((histGames db now game).length : ℚ)| ≤ 1 / 2
      ∧ (computeForecastForGame db now game).forecasted_income
          = ((histGames db now game).map
              (fun g => ((confirmedPayments db g.id).map (·.amount)).sum)).sum
            / ((histGames db now game).length : ℚ))
  ∧ (histGames db now game = [] →
        (computeForecastForGame db now game).forecasted_players
            = (maxPlayersOr game 16 : Int)
      ∧ (computeForecastForGame db now game).forecasted_income
          = priceOrZero game * (maxPlayersOr game 16 : Money))
  ∧ (∀ game_id cached, ∃ resp,
        (forecastComputeBranch db now game game_id cached).1 = Except.ok resp
        ∧ resp.forecasted_players = (computeForecastForGame db now game).forecasted_players
        ∧ resp.forecasted_income = (computeForecastForGame db now game).forecasted_income) := by
  refine ⟨?_, ?_, ?_⟩
  · intro hne
    have hE : ¬ (historicalRows db now game).isEmpty := by
      intro h
      exact hne (histGames_nil_of_isEmpty h)
    have hplayers : avgPlayers (historicalRows db now game)
        = ((histGames db now game).map
            (fun g => ((confirmedPayments db g.id).length : ℚ))).sum
          / ((histGames db now game).length : ℚ) := by
      unfold avgPlayers historicalRows
      rw [List.map_map, List.length_map]
      rfl
    have hrev : avgRevenue (historicalRows db now game)
        = ((histGames db now game).map
            (fun g => ((confirmedPayments db g.id).map (·.amount)).sum)).sum
          / ((histGames db now game).length : ℚ) := by
      unfold avgRevenue
      rw [historicalRows_revenues]
      unfold historicalRows
      rw [List.length_map]
    constructor
    · rw [← hplayers]
      simp only [computeForecastForGame, hE, Bool.false_eq_true, if_false]
      exact pyRound_near _
    · rw [← hrev]
      simp [computeForecastForGame, hE]
  · intro h0
    have hE : (historicalRows db now game).isEmpty = true := by
      unfold historicalRows
      rw [h0]
      rfl
    constructor <;> simp [computeForecastForGame, hE]
  · intro game_id cached
    exact ⟨_, forecastComputeBranch_fst db now game game_id cached, rfl, rfl⟩

/-! ## C1: the forecast cache TTL -/

theorem forecastComputeBranch_snd_update (db : DB) (now : Timestamp)
    (game : GameSchedule) (game_id : Nat) (cached : ForecastCache) :
    (forecastComputeBranch db now game game_id (some cached)).2
      = { db with forecast_cache := db.forecast_cache.map (fun row =>
          if row.game_id == game_id then
            { row with
                forecasted_players := (computeForecastForGame db now game).forecasted_players
                forecasted_income := (computeForecastForGame db now game).forecasted_income
                confidence_level := (computeForecastForGame db now game).confidence_level
                computed_at := now }
          else row) } := by
  by_cases h : (historicalRows db now game).isEmpty <;>
    simp [forecastComputeBranch, computeForecastForGame, h]

theorem forecastComputeBranch_snd_insert (db : DB) (now : Timestamp)
    (game : GameSchedule) (game_id : Nat) :
    (forecastComputeBranch db now game game_id none).2
      = { db with forecast_cache := db.forecast_cache ++
          [{ id := freshId (db.forecast_cache.map (·.id))
             game_id := game_id
             forecasted_players := (computeForecastForGame db now game).forecasted_players
             forecasted_income := (computeForecastForGame db now game).forecasted_income
             confidence_level := (computeForecastForGame db now game).confidence_level
             method := "historical_average"
             forecast_metadata := none
             computed_at := now }] } := by
  by_cases h : (historicalRows db now game).isEmpty <;>
    simp [forecastComputeBranch, computeForecastForGame, h]

/-- C1 (code bug): the forecast cache does not behave as the claim states,
because `.metadata` on a `ForecastCache` row is SQLAlchemy's reserved
`Base.metadata` registry, not the `forecast_metadata` column. At the failing
input `dbFc` (game 1 with a cache row computed at 1728000000): a read 1000
seconds later, inside the 24-hour window, errors out of the response
constructor instead of returning the cached values; a stale read 25 hours
later does recompute and refresh the row in place (`computed_at = now`, the
table still one row) but leaves the old `forecast_metadata` dict in the
column while answering with the newly computed metadata; and on `dbFcEmpty`
(no cache row) the inserted row's `forecast_metadata` is NULL although the
response carries the computed metadata. -/
theorem getGameForecast_metadata_bug :
    getGameForecast dbFc 1728001000 1 = (Except.error ApiError.validationError, dbFc)
  ∧ (getGameForecast dbFc 1728090000 1).2.forecast_cache.map
      (fun c => (c.game_id, c.computed_at, c.forecast_metadata))
      = [(1, 1728090000,
          some { historical_games_count := 7, weekday := 5, location := "Old" })]
  ∧ (getGameForecast dbFc 1728090000 1).1.map (·.historical_data)
      = Except.ok (some
          { historical_games_count := 0, weekday := 0, location := "Beach" })
  ∧ (getGameForecast dbFcEmpty 1728090000 1).2.forecast_cache.map
      (fun c => (c.game_id, c.forecast_metadata)) = [(1, none)]
  ∧ (getGameForecast dbFcEmpty 1728090000 1).1.map (·.historical_data)
      = Except.ok (some
          { historical_games_count := 0, weekday := 0, location := "Beach" }) := by
  decide

/-! ## C9: create_payment -/

/-- C9: `create_payment` answers 404 when the game or the player is missing
and 400 when a payment for the (game, player) pair exists, each time leaving
the database unchanged; otherwise it adds exactly one payment row carrying
the submitted amount, currency, method and status, stamped `paid_at = now`. -/
theorem createPayment_checks (db : DB) (now : Timestamp) (gid : Nat)
    (pc : PaymentCreate) :
    (db.games.filter (fun g => g.id == gid) = [] →
        createPayment db now gid pc
          = (Except.error (ApiError.http 404 "Game not found"), db))
  ∧ (∀ game, db.games.filter (fun g => g.id == gid) = [game] →
        (db.players.filter (fun p => p.id == pc.player_id) = [] →
            createPayment db now gid pc
              = (Except.error (ApiError.http 404 "Player not found"), db))
      ∧ (∀ player, db.players.filter (fun p => p.id == pc.player_id) = [player] →
          (∀ ep, db.event_payments.filter
                (fun e => e.game_id == gid && e.player_id == pc.player_id) = [ep] →
              createPayment db now gid pc
                = (Except.error (ApiError.http 400
                    "Payment already exists for this player and game"), db))
        ∧ (db.event_payments.filter
              (fun e => e.game_id == gid && e.player_id == pc.player_id) = [] →
            ∃ np : EventPayment,
              createPayment db now gid pc
                = (Except.ok
                    { id := np.id
                      game_id := np.game_id
                      player_id := np.player_id
                      player_username := player.username
                      player_display_name := player.display_name
                      amount := np.amount
                      currency := np.currency
                      paid_at := np.paid_at
                      method := np.method
                      status := np.status
                      external_payment_id := np.external_payment_id },
                   { db with event_payments := db.event_payments ++ [np] })
              ∧ np.paid_at = now ∧ np.amount = pc.amount ∧ np.currency = pc.currency
              ∧ np.method = pc.method ∧ np.status = pc.status
              ∧ np.game_id = gid ∧ np.player_id = pc.player_id))) := by
  refine ⟨?_, ?_⟩
  · intro h
    unfold createPayment
    rw [h]
    rfl
  · intro game hgame
    refine ⟨?_, ?_⟩
    · intro h
      unfold createPayment
      rw [hgame, h]
      rfl
    · intro player hplayer
      refine ⟨?_, ?_⟩
      · intro ep hep
        unfold createPayment
        rw [hgame, hplayer, hep]
        rfl
      · intro h
        refine ⟨{ id := freshId (db.event_payments.map (·.id)),
                  game_id := gid, player_id := pc.player_id, amount := pc.amount,
                  currency := pc.currency, paid_at := now, method := pc.method,
                  status := pc.status,
                  external_payment_id := pc.external_payment_id,
                  notes := pc.notes }, ?_, rfl, rfl, rfl, rfl, rfl, rfl, rfl⟩
        unfold createPayment
        rw [hgame, hplayer, h]
        rfl

/-- C9, witness: against `dbPay` the unknown game 2 and the unknown player 3
get their 404s with the database untouched, and the valid request appends
exactly one payment row. -/
theorem createPayment_checks_witness :
    createPayment dbPay 777 2 exPaymentCreate
        = (Except.error (ApiError.http 404 "Game not found"), dbPay)
  ∧ createPayment dbPay 777 1 exPaymentCreateMissing
        = (Except.error (ApiError.http 404 "Player not found"), dbPay)
  ∧ (createPayment dbPay 777 1 exPaymentCreate).2.event_payments.length = 1 := by
  refine ⟨(createPayment_checks dbPay 777 2 exPaymentCreate).1 (by decide),
    ((createPayment_checks dbPay 777 1 exPaymentCreateMissing).2 exPayGame
      (by decide)).1 (by decide), ?_⟩
  obtain ⟨np, heq, -⟩ :=
    (((createPayment_checks dbPay 777 1 exPaymentCreate).2 exPayGame
      (by decide)).2 exPayPlayer (by decide)).2 (by decide)
  rw [heq]
  simp [dbPay]

/-! ## C8: poll statistics -/

/-- C10: the roster endpoint returns at most `limit` players, with
`total_count` equal to the number returned; the players are the
`voted_at`-sorted votes' players, votes with no matching player row silently
dropped (so the count can fall below the number of votes considered); with no
upcoming game the response is empty with `game = none`, and with an upcoming
game but no game poll it is empty with the game filled in. -/
theorem getNextGamePlayers_props (db : DB) (now : Timestamp) (limit : Nat) :
    ((getNextGamePlayers db now limit).players.length ≤ limit
      ∧ (getNextGamePlayers db now limit).total_count
          = (getNextGamePlayers db now limit).players.length
      ∧ ∃ vs : List PollVote, List.Sorted byVotedAt vs
          ∧ vs.length ≤ limit
          ∧ (∀ v ∈ vs, v ∈ db.poll_votes)
          ∧ (getNextGamePlayers db now limit).players
              = (vs.filterMap (fun v =>
                  db.players.find? (fun p => p.telegram_user_id == some v.user_id))).map
                  playerResponseOf
          ∧ (getNextGamePlayers db now limit).total_count ≤ vs.length)
  ∧ (db.games.filter (fun g => decide (now < g.game_date)) = [] →
        getNextGamePlayers db now limit
          = { game := none, players := [], total_count := 0 })
  ∧ (db.games.filter (fun g => decide (now < g.game_date)) ≠ [] →
     db.polls.filter (fun p => p.poll_type == "game") = [] →
        ∃ g, getNextGamePlayers db now limit
          = { game := some (gameResponseOf g), players := [], total_count := 0 }) := by
  refine ⟨?_, ?_, ?_⟩
  · unfold getNextGamePlayers
    cases hg : (List.insertionSort byGameDate
        (db.games.filter (fun g => decide (now < g.game_date)))).head? with
    | none =>
      simp only [hg]
      refine ⟨Nat.zero_le _, rfl, [], List.sorted_nil, Nat.zero_le _, ?_, rfl,
        Nat.le_refl 0⟩
      intro v hv
      cases hv
    | some next_game =>
      cases hp : (List.insertionSort byCreatedDesc
          (db.polls.filter (fun p => p.poll_type == "game"))).head? with
      | none =>
        simp only [hg, hp]
        refine ⟨Nat.zero_le _, rfl, [], List.sorted_nil, Nat.zero_le _, ?_, rfl,
          Nat.le_refl 0⟩
        intro v hv
        cases hv
      | some poll =>
        simp only [hg, hp]
        refine ⟨?_, (List.length_map _ _).symm,
          (List.insertionSort byVotedAt
            (db.poll_votes.filter (fun v => v.poll_id == poll.poll_id))).take limit,
          ?_, List.length_take_le _ _, ?_, rfl, List.length_filterMap_le _ _⟩
        · rw [List.length_map]
          exact le_trans (List.length_filterMap_le _ _) (List.length_take_le _ _)
        · exact List.Pairwise.sublist (List.take_sublist _ _)
            (List.sorted_insertionSort byVotedAt _)
        · intro v hv
          have h1 := (List.take_sublist limit _).subset hv
          have h2 := (List.perm_insertionSort byVotedAt
            (db.poll_votes.filter (fun v => v.poll_id == poll.poll_id))).subset h1
          exact List.mem_of_mem_filter h2
  · intro h
    unfold getNextGamePlayers
    rw [h]
    rfl
  · intro hne hpolls
    unfold getNextGamePlayers
    rw [hpolls]
    cases hg : (List.insertionSort byGameDate
        (db.games.filter (fun g => decide (now < g.game_date)))).head? with
    | none =>
      rw [List.head?_eq_none_iff] at hg
      have hperm := List.perm_insertionSort byGameDate
        (db.games.filter (fun g => decide (now < g.game_date)))
      rw [hg] at hperm
      exact absurd hperm.symm.eq_nil hne
    | some next_game =>
      simp only [hg]
      exact ⟨next_game, rfl⟩

/-- C10, witness: for `dbNext` (two votes, only one voter with a player row)
the endpoint returns the single matching player in vote order, so
`total_count = 1` is smaller than the 2 votes considered, and stays within
the limit. -/
theorem getNextGamePlayers_props_witness :
    getNextGamePlayers dbNext 0 18
        = { game := some (gameResponseOf exNextGame)
            players := [playerResponseOf exNextPlayer]
            total_count := 1 }
  ∧ (getNextGamePlayers dbNext 0 18).players.length ≤ 18 := by
  exact ⟨by decide, (getNextGamePlayers_props dbNext 0 18).1.1⟩

/-! ## C6: the poll-answer upsert -/

theorem recordVote_update (pa : PollAnswer) (now : Timestamp)
    (votes : List PollVote) (oid : Nat) (v0 : PollVote)
    (h : keyVotes votes pa = [v0]) :
    recordVote pa now votes oid = Except.ok (votes.map (fun v =>
      if v.poll_id == pa.poll_id && v.user_id == pa.user_id then
        { v with option_id := oid, voted_at := now }
      else v)) := by
  unfold recordVote
  unfold keyVotes at h
  rw [h]
  rfl

theorem recordVote_insert (pa : PollAnswer) (now : Timestamp)
    (votes : List PollVote) (oid : Nat)
    (h : keyVotes votes pa = []) :
    recordVote pa now votes oid = Except.ok (votes ++
      [{ id := freshId (votes.map (·.id)), poll_id := pa.poll_id,
         user_id := pa.user_id, option_id := oid, voted_at := now }]) := by
  unfold recordVote
  unfold keyVotes at h
  rw [h]
  rfl

theorem keyVotes_map_update (pa : PollAnswer) (now : Timestamp)
    (votes : List PollVote) (oid : Nat) :
    keyVotes (votes.map (fun v =>
      if v.poll_id == pa.poll_id && v.user_id == pa.user_id then
        { v with option_id := oid, voted_at := now }
      else v)) pa
      = (keyVotes votes pa).map (fun v =>
          { v with option_id := oid, voted_at := now }) := by
  unfold keyVotes
  exact filter_map_ite_pos
    (fun v : PollVote => v.poll_id == pa.poll_id && v.user_id == pa.user_id)
    (fun v : PollVote => { v with option_id := oid, voted_at := now })
    (fun x => rfl) votes

theorem nonKeyVotes_map_update (pa : PollAnswer) (now : Timestamp)
    (votes : List PollVote) (oid : Nat) :
    nonKeyVotes (votes.map (fun v =>
      if v.poll_id == pa.poll_id && v.user_id == pa.user_id then
        { v with option_id := oid, voted_at := now }
      else v)) pa
      = nonKeyVotes votes pa := by
  unfold nonKeyVotes
  exact filter_map_ite_neg
    (fun v : PollVote => v.poll_id == pa.poll_id && v.user_id == pa.user_id)
    (fun v : PollVote => { v with option_id := oid, voted_at := now })
    (fun x => rfl) votes

theorem foldlM_recordVote_from_one (pa : PollAnswer) (now : Timestamp) :
    ∀ (opts : List Nat) (votes : List PollVote) (v0 : PollVote),
      keyVotes votes pa = [v0] →
      ∃ votes', List.foldlM (recordVote pa now) votes opts = Except.ok votes'
        ∧ keyVotes votes' pa
            = [opts.foldl (fun v oid =>
                { v with option_id := oid, voted_at := now }) v0]
        ∧ nonKeyVotes votes' pa = nonKeyVotes votes pa
        ∧ votes'.length = votes.length := by
  intro opts
  induction opts with
  | nil =>
    intro votes v0 h
    exact ⟨votes, rfl, h, rfl, rfl⟩
  | cons oid rest ih =>
    intro votes v0 h
    have hstep := recordVote_update pa now votes oid v0 h
    have hkey1 : keyVotes (votes.map (fun v =>
        if v.poll_id == pa.poll_id && v.user_id == pa.user_id then
          { v with option_id := oid, voted_at := now }
        else v)) pa = [{ v0 with option_id := oid, voted_at := now }] := by
      rw [keyVotes_map_update, h]
      rfl
    obtain ⟨votes', hfold, hkv, hnkv, hlenv⟩ := ih _ _ hkey1
    refine ⟨votes', ?_, ?_, ?_, ?_⟩
    · rw [List.foldlM_cons, hstep]
      exact hfold
    · rw [hkv]
      rfl
    · rw [hnkv, nonKeyVotes_map_update]
    · rw [hlenv, List.length_map]

theorem foldl_update_getLast (now : Timestamp) :
    ∀ (opts : List Nat) (o : Nat), opts.getLast? = some o → ∀ v : PollVote,
      opts.foldl (fun v oid => { v with option_id := oid, voted_at := now }) v
        = { v with option_id := o, voted_at := now } := by
  intro opts
  induction opts with
  | nil =>
    intro o ho
    cases ho
  | cons a rest ih =>
    intro o ho v
    cases hr : rest with
    | nil =>
      subst hr
      have hoa : a = o := by simpa using ho
      subst hoa
      rfl
    | cons b t =>
      subst hr
      rw [List.foldl_cons]
      rw [ih o (by rwa [List.getLast?_cons_cons] at ho)]

theorem except_ok_bind {ε α β : Type} (a : α) (f : α → Except ε β) :
    (Except.ok a >>= f) = f a := rfl

theorem except_error_bind {ε α β : Type} (e : ε) (f : α → Except ε β) :
    ((Except.error e : Except ε α) >>= f) = (Except.error e : Except ε β) := rfl

theorem foldl_update_pair (now : Timestamp) (a : Nat) (rest : List Nat) (o : Nat)
    (ho : (a :: rest).getLast? = some o) (v : PollVote)
    (hv : v.option_id = a) (ht : v.voted_at = now) :
    ((rest.foldl (fun v oid => { v with option_id := oid, voted_at := now }) v).option_id,
     (rest.foldl (fun v oid => { v with option_id := oid, voted_at := now }) v).voted_at)
      = (o, now) := by
  cases rest with
  | nil =>
    have hao : a = o := by simpa using ho
    subst hao
    simp [hv, ht]
  | cons b t =>
    rw [foldl_update_getLast now (b :: t) o (by rwa [List.getLast?_cons_cons] at ho)]

theorem foldl_update_row (now : Timestamp) (a : Nat) (rest : List Nat) (o : Nat)
    (ho : (a :: rest).getLast? = some o) (v : PollVote) :
    rest.foldl (fun v oid => { v with option_id := oid, voted_at := now })
      { v with option_id := a, voted_at := now }
      = { v with option_id := o, voted_at := now } := by
  cases rest with
  | nil =>
    have hao : a = o := by simpa using ho
    subst hao
    rfl
  | cons b t =>
    rw [foldl_update_getLast now (b :: t) o (by rwa [List.getLast?_cons_cons] at ho)]

/-- C6: `on_poll_answer` stamps every stored vote with the handler's own
clock — aiogram's `PollAnswer` carries no client timestamp — and for a
(poll, user) pair that already has a vote it rewrites that row's `option_id`
and `voted_at` in place: afterwards the pair has exactly one row (the old row
updated, for the last chosen option), no other row changes, and the table
grows only when the pair had no row yet. -/
theorem onPollAnswer_server_time_upsert (db : DB) (pa : PollAnswer)
    (now : Timestamp) (hne : pa.option_ids ≠ [])
    (hinv : (keyVotes db.poll_votes pa).length ≤ 1) :
    (∀ o, pa.option_ids.getLast? = some o →
        (keyVotes (onPollAnswer db pa now).poll_votes pa).map
          (fun v => (v.option_id, v.voted_at)) = [(o, now)])
  ∧ nonKeyVotes (onPollAnswer db pa now).poll_votes pa
      = nonKeyVotes db.poll_votes pa
  ∧ (onPollAnswer db pa now).poll_votes.length
      = db.poll_votes.length + (1 - (keyVotes db.poll_votes pa).length)
  ∧ (∀ v0 o, keyVotes db.poll_votes pa = [v0] →
      pa.option_ids.getLast? = some o →
      keyVotes (onPollAnswer db pa now).poll_votes pa
        = [{ v0 with option_id := o, voted_at := now }]) := by
  obtain ⟨oid0, rest, hopts⟩ : ∃ o r, pa.option_ids = o :: r := by
    cases hO : pa.option_ids with
    | nil => exact absurd hO hne
    | cons o r => exact ⟨o, r, rfl⟩
  cases hk : keyVotes db.poll_votes pa with
  | nil =>
    have hins := recordVote_insert pa now db.poll_votes oid0 hk
    have hkey1 : keyVotes (db.poll_votes ++
        [{ id := freshId (db.poll_votes.map (·.id)), poll_id := pa.poll_id,
           user_id := pa.user_id, option_id := oid0, voted_at := now }]) pa
        = [{ id := freshId (db.poll_votes.map (·.id)), poll_id := pa.poll_id,
             user_id := pa.user_id, option_id := oid0, voted_at := now }] := by
      unfold keyVotes
      rw [List.filter_append]
      unfold keyVotes at hk
      rw [hk]
      simp
    obtain ⟨votes', hfold, hkv, hnkv, hlenv⟩ :=
      foldlM_recordVote_from_one pa now rest _ _ hkey1
    have hrun : onPollAnswer db pa now = { db with poll_votes := votes' } := by
      unfold onPollAnswer
      simp only [hopts, List.foldlM_cons, hins, except_ok_bind]
      rw [hfold]
    simp only [hrun]
    refine ⟨?_, ?_, ?_, ?_⟩
    · intro o ho
      rw [hopts] at ho
      show (keyVotes votes' pa).map (fun v => (v.option_id, v.voted_at)) = [(o, now)]
      rw [hkv]
      simp only [List.map_cons, List.map_nil]
      exact congrArg (fun p => [p]) (foldl_update_pair now oid0 rest o ho _ rfl rfl)
    · show nonKeyVotes votes' pa = nonKeyVotes db.poll_votes pa
      rw [hnkv]
      unfold nonKeyVotes
      rw [List.filter_append]
      simp
    · show votes'.length = db.poll_votes.length + (1 - ([] : List PollVote).length)
      rw [hlenv, List.length_append]
      rfl
    · intro v0 o h0 _
      simp at h0
  | cons v0 tail =>
    have htail : tail = [] := by
      rw [hk] at hinv
      cases tail with
      | nil => rfl
      | cons x xs => simp at hinv
    subst htail
    have hupd := recordVote_update pa now db.poll_votes oid0 v0 hk
    have hkey1 : keyVotes (db.poll_votes.map (fun v =>
        if v.poll_id == pa.poll_id && v.user_id == pa.user_id then
          { v with option_id := oid0, voted_at := now }
        else v)) pa = [{ v0 with option_id := oid0, voted_at := now }] := by
      rw [keyVotes_map_update, hk]
      rfl
    obtain ⟨votes', hfold, hkv, hnkv, hlenv⟩ :=
      foldlM_recordVote_from_one pa now rest _ _ hkey1
    have hrun : onPollAnswer db pa now = { db with poll_votes := votes' } := by
      unfold onPollAnswer
      simp only [hopts, List.foldlM_cons, hupd, except_ok_bind]
      rw [hfold]
    simp only [hrun]
    refine ⟨?_, ?_, ?_, ?_⟩
    · intro o ho
      rw [hopts] at ho
      show (keyVotes votes' pa).map (fun v => (v.option_id, v.voted_at)) = [(o, now)]
      rw [hkv]
      simp only [List.map_cons, List.map_nil]
      exact congrArg (fun p => [p]) (foldl_update_pair now oid0 rest o ho _ rfl rfl)
    · show nonKeyVotes votes' pa = nonKeyVotes db.poll_votes pa
      rw [hnkv, nonKeyVotes_map_update]
    · show votes'.length = db.poll_votes.length + (1 - [v0].length)
      rw [hlenv, List.length_map]
      rfl
    · intro v0' o h0 ho
      have hv0 : v0 = v0' := by
        simpa using h0
      subst hv0
      rw [hopts] at ho
      show keyVotes votes' pa = [{ v0 with option_id := o, voted_at := now }]
      rw [hkv, foldl_update_row now oid0 rest o ho v0]

/-- C6, witness: user 5 re-answers poll "p1" with option 2 at time 999: the
pair still has one row, stamped (2, 999); the other user's row is untouched;
the table does not grow; and the updated row is the old row in place. -/
theorem onPollAnswer_server_time_upsert_witness :
    ((keyVotes (onPollAnswer dbVotes exPollAnswer 999).poll_votes exPollAnswer).map
        (fun v => (v.option_id, v.voted_at)) = [(2, 999)])
  ∧ nonKeyVotes (onPollAnswer dbVotes exPollAnswer 999).poll_votes exPollAnswer
      = nonKeyVotes dbVotes.poll_votes exPollAnswer
  ∧ (onPollAnswer dbVotes exPollAnswer 999).poll_votes.length
      = dbVotes.poll_votes.length
        + (1 - (keyVotes dbVotes.poll_votes exPollAnswer).length)
  ∧ keyVotes (onPollAnswer dbVotes exPollAnswer 999).poll_votes exPollAnswer
      = [{ exVote with option_id := 2, voted_at := 999 }] := by
  obtain ⟨h1, h2, h3, h4⟩ :=
    onPollAnswer_server_time_upsert dbVotes exPollAnswer 999 (by decide) (by decide)
  exact ⟨h1 2 (by decide), h2, h3, h4 exVote 2 (by decide) (by decide)⟩

/-! ## C7: one cache row per game -/

theorem scalarOneOrNone_none_eq {α : Type} {l : List α}
    (h : scalarOneOrNone l = Except.ok none) : l = [] := by
  cases l with
  | nil => rfl
  | cons a t =>
    cases t with
    | nil => simp [scalarOneOrNone] at h
    | cons b u => simp [scalarOneOrNone] at h

theorem nodup_append_key {α : Type} (l : List α) (key : α → Nat) (gid : Nat)
    (new : α)
    (hfil : l.filter (fun x => key x == gid) = [])
    (hnew : key new = gid)
    (h : (l.map key).Nodup) :
    ((l ++ [new]).map key).Nodup := by
  rw [List.map_append]
  rw [List.nodup_append]
  refine ⟨h, List.nodup_singleton _, ?_⟩
  intro a ha hb
  have hak : a = key new := by simpa using hb
  obtain ⟨x, hx, hxk⟩ := List.mem_map.mp ha
  have hnx := List.filter_eq_nil_iff.mp hfil x hx
  apply hnx
  rw [show key x = gid from by rw [hxk, hak, hnew]]
  simp

theorem upsertBudgetCache_ok (db : DB) (now : Timestamp) (game : GameSchedule)
    (bd : BudgetData) (db' : DB)
    (h : upsertBudgetCache db now game bd = Except.ok db')
    (hu : cacheKeysUnique db) :
    cacheKeysUnique db' ∧ db'.forecast_cache = db.forecast_cache := by
  unfold upsertBudgetCache at h
  cases hres : scalarOneOrNone (db.budget_cache.filter (fun c => c.game_id == game.id)) with
  | error e =>
    rw [hres] at h
    simp at h
  | ok opt =>
    cases opt with
    | some c =>
      rw [hres] at h
      injection h with h'
      subst h'
      refine ⟨⟨?_, hu.2⟩, rfl⟩
      show ((db.budget_cache.map (fun row =>
          if row.game_id == game.id then
            { row with
                expected_income := bd.expected_income
                actual_income := bd.actual_income
                number_of_payers := bd.number_of_payers
                expected_players := bd.expected_players
                registered_players := bd.registered_players
                paid_players_list := bd.paid_players_list
                unpaid_players_list := bd.unpaid_players_list
                computed_at := now }
          else row)).map (fun c => c.game_id)).Nodup
      rw [map_key_ite (fun row : BudgetCache => row.game_id == game.id)
        (fun row : BudgetCache =>
          { row with
              expected_income := bd.expected_income
              actual_income := bd.actual_income
              number_of_payers := bd.number_of_payers
              expected_players := bd.expected_players
              registered_players := bd.registered_players
              paid_players_list := bd.paid_players_list
              unpaid_players_list := bd.unpaid_players_list
              computed_at := now })
        (fun c : BudgetCache => c.game_id) (fun x _ => rfl)]
      exact hu.1
    | none =>
      rw [hres] at h
      injection h with h'
      subst h'
      refine ⟨⟨?_, hu.2⟩, rfl⟩
      exact nodup_append_key db.budget_cache (fun c => c.game_id) game.id _
        (scalarOneOrNone_none_eq hres) rfl hu.1

theorem upsertForecastCache_ok (db : DB) (now : Timestamp) (game : GameSchedule)
    (fd : ForecastData) (db' : DB)
    (h : upsertForecastCache db now game fd = Except.ok db')
    (hu : cacheKeysUnique db) :
    cacheKeysUnique db' := by
  unfold upsertForecastCache at h
  cases hres : scalarOneOrNone (db.forecast_cache.filter (fun c => c.game_id == game.id)) with
  | error e =>
    rw [hres] at h
    simp at h
  | ok opt =>
    cases opt with
    | some c =>
      rw [hres] at h
      injection h with h'
      subst h'
      refine ⟨hu.1, ?_⟩
      show ((db.forecast_cache.map (fun row =>
          if row.game_id == game.id then
            { row with
                forecasted_players := fd.forecasted_players
                forecasted_income := fd.forecasted_income
                confidence_level := fd.confidence_level
                method := fd.method
                computed_at := now }
          else row)).map (fun c => c.game_id)).Nodup
      rw [map_key_ite (fun row : ForecastCache => row.game_id == game.id)
        (fun row : ForecastCache =>
          { row with
              forecasted_players := fd.forecasted_players
              forecasted_income := fd.forecasted_income
              confidence_level := fd.confidence_level
              method := fd.method
              computed_at := now })
        (fun c : ForecastCache => c.game_id) (fun x _ => rfl)]
      exact hu.2
    | none =>
      rw [hres] at h
      injection h with h'
      subst h'
      refine ⟨hu.1, ?_⟩
      exact nodup_append_key db.forecast_cache (fun c => c.game_id) game.id _
        (scalarOneOrNone_none_eq hres) rfl hu.2

theorem processGame_ok (now : Timestamp) (game : GameSchedule) (db db' : DB)
    (h : processGame now db game = Except.ok db') (hu : cacheKeysUnique db) :
    cacheKeysUnique db' := by
  unfold processGame at h
  cases hb : computeBudgetForGame db game with
  | error e =>
    rw [hb] at h
    rw [except_error_bind] at h
    exact Except.noConfusion h
  | ok bd =>
    rw [hb] at h
    simp only [except_ok_bind] at h
    cases hub : upsertBudgetCache db now game bd with
    | error e =>
      rw [hub] at h
      rw [except_error_bind] at h
      exact Except.noConfusion h
    | ok db1 =>
      rw [hub] at h
      simp only [except_ok_bind] at h
      exact upsertForecastCache_ok db1 now game _ db' h
        (upsertBudgetCache_ok db now game bd db1 hub hu).1

theorem foldlM_processGame_inv (now : Timestamp) :
    ∀ (l : List GameSchedule) (db db' : DB),
      cacheKeysUnique db →
      List.foldlM (processGame now) db l = Except.ok db' →
      cacheKeysUnique db' := by
  intro l
  induction l with
  | nil =>
    intro db db' hu h
    have hdd : db = db' := Except.ok.inj h
    rwa [← hdd]
  | cons g t ih =>
    intro db db' hu h
    rw [List.foldlM_cons] at h
    cases hg : processGame now db g with
    | error e =>
      rw [hg] at h
      rw [except_error_bind] at h
      exact Except.noConfusion h
    | ok db1 =>
      rw [hg] at h
      simp only [except_ok_bind] at h
      exact ih db1 db' (processGame_ok now g db db1 hg hu) h

/-- C7: each game has at most one `budget_cache` row and at most one
`forecast_cache` row (`game_id` unique), and both write paths — the nightly
analytics job and the forecast endpoint's write-back — preserve that
invariant: an existing row is updated in place, a new row is inserted only
when the game has none. -/
theorem cache_single_row_per_game (db : DB) (now : Timestamp) (gid : Nat)
    (h : cacheKeysUnique db) :
    cacheKeysUnique (runBudgetAnalyticsJob db now)
  ∧ cacheKeysUnique (getGameForecast db now gid).2 := by
  constructor
  · unfold runBudgetAnalyticsJob
    cases hres : List.foldlM (processGame now) db
        (List.insertionSort byGameDate (db.games.filter (fun g =>
          decide (now ≤ g.game_date) &&
          decide (g.game_date ≤ now + 7 * secondsPerDay)))) with
    | ok db' =>
      simp only [hres]
      exact foldlM_processGame_inv now _ db db' h hres
    | error e =>
      simp only [hres]
      exact h
  · unfold getGameForecast
    cases hg : scalarOneOrNone (db.games.filter (fun g => g.id == gid)) with
    | error e =>
      simp only [hg]
      exact h
    | ok og =>
      cases og with
      | none =>
        simp only [hg]
        exact h
      | some game =>
        simp only [hg]
        cases hc : scalarOneOrNone (db.forecast_cache.filter
            (fun c => c.game_id == gid)) with
        | error e =>
          simp only [hc]
          exact h
        | ok oc =>
          cases oc with
          | some cached =>
            simp only [hc]
            by_cases hf : now - cached.computed_at < 24 * 3600
            · rw [if_pos hf]
              exact h
            · rw [if_neg hf]
              rw [forecastComputeBranch_snd_update]
              refine ⟨h.1, ?_⟩
              show ((db.forecast_cache.map (fun row =>
                  if row.game_id == gid then
                    { row with
                        forecasted_players :=
                          (computeForecastForGame db now game).forecasted_players
                        forecasted_income :=
                          (computeForecastForGame db now game).forecasted_income
                        confidence_level :=
                          (computeForecastForGame db now game).confidence_level
                        computed_at := now }
                  else row)).map (fun c => c.game_id)).Nodup
              rw [map_key_ite (fun row : ForecastCache => row.game_id == gid)
                (fun row : ForecastCache =>
                  { row with
                      forecasted_players :=
                        (computeForecastForGame db now game).forecasted_players
                      forecasted_income :=
                        (computeForecastForGame db now game).forecasted_income
                      confidence_level :=
                        (computeForecastForGame db now game).confidence_level
                      computed_at := now })
                (fun c : ForecastCache => c.game_id) (fun x _ => rfl)]
              exact h.2
          | none =>
            simp only [hc]
            rw [forecastComputeBranch_snd_insert]
            refine ⟨h.1, ?_⟩
            exact nodup_append_key db.forecast_cache (fun c => c.game_id) gid _
              (scalarOneOrNone_none_eq hc) rfl h.2

/-- C7, witness: with one row per game in each cache table of `dbCaches`, the
invariant survives both a job run and a stale forecast read. -/
theorem cache_single_row_per_game_witness :
    cacheKeysUnique (runBudgetAnalyticsJob dbCaches 1728259200)
  ∧ cacheKeysUnique (getGameForecast dbCaches 1728259200 1).2 := by
  exact cache_single_row_per_game dbCaches 1728259200 1 (by decide)

/-- C5, witness: for `dbMean` the sample is the two Sunday games, one with
two confirmed payments (10 + 20) and one with none, and the forecast income
is their mean revenue. -/
theorem forecast_mean_and_fallback_witness :
    histGames dbMean dowNow meanTargetGame ≠ []
  ∧ (computeForecastForGame dbMean dowNow meanTargetGame).forecasted_income
      = ((histGames dbMean dowNow meanTargetGame).map
          (fun g => ((confirmedPayments dbMean g.id).map (·.amount)).sum)).sum
        / ((histGames dbMean dowNow meanTargetGame).length : ℚ) := by
  refine ⟨by decide, ?_⟩
  exact ((forecast_mean_and_fallback dbMean dowNow meanTargetGame).1 (by decide)).2
